import Mathlib

/-!
Shallow embedding of `src/assets/js/detector.js` (class `SilentGuardian`,
profiles `SG_PROFILES`, factory `createGuardian`) and proofs about it.

Modelling conventions:
* JS numbers that the detector uses (timestamps, scores, weights, counts,
  durations) are embedded as `Int`.
* `options.x || d` on numeric options is `jsOr`: an absent option or a
  present value equal to `0` (JS falsy) falls back to the default `d`.
* Browser/API behaviour that the probes observe is an explicit `Env`
  record (probe availability, probe data, the SHA-256 digest result, the
  user's interaction with a challenge).  Hook callbacks are modelled by
  registration flags plus an event trace of invocations.
* `try`/`catch`-protected probes are total functions; `_fontFingerprint`,
  which has no handler in the source, returns `Except JsError _` and an
  error propagates out of `generateFingerprint`.
-/

namespace SilentGuardian

/-- Constructor options (detector.js lines 26-66): every field optional. -/
structure Options where
  lowThreshold : Option Int := none
  mediumThreshold : Option Int := none
  highThreshold : Option Int := none
  minMouseSamples : Option Int := none
  minKeyboardSamples : Option Int := none
  webdriverWeight : Option Int := none
  canvasErrorWeight : Option Int := none
  webglErrorWeight : Option Int := none
  lowFontsWeight : Option Int := none
  oneCoreWeight : Option Int := none
  straightMouseWeight : Option Int := none
  evenMouseSpeedWeight : Option Int := none
  superFastTypingWeight : Option Int := none
  evenTypingWeight : Option Int := none
  noScrollStopsWeight : Option Int := none
  challengeTimeout : Option Int := none
  rateLimitWindow : Option Int := none
  maxVerifyPerWindow : Option Int := none
  debug : Option Bool := none
  deriving DecidableEq

/-- JS `options.x || d` on a numeric option: absent or zero falls back. -/
def jsOr (v : Option Int) (d : Int) : Int :=
  match v with
  | none => d
  | some x => if x = 0 then d else x

structure Thresholds where
  low : Int
  medium : Int
  high : Int
  deriving DecidableEq

structure MinSamples where
  mouse : Int
  keyboard : Int
  deriving DecidableEq

structure SuspicionWeights where
  webdriver : Int
  canvasError : Int
  webglError : Int
  lowFonts : Int
  oneCore : Int
  straightMouse : Int
  evenMouseSpeed : Int
  superFastTyping : Int
  evenTyping : Int
  noScrollStops : Int
  deriving DecidableEq

structure Config where
  thresholds : Thresholds
  minSamples : MinSamples
  suspicionWeights : SuspicionWeights
  challengeTimeout : Int
  rateLimitWindow : Int
  maxVerifyPerWindow : Int
  debug : Bool
  deriving DecidableEq

/-- `this.config` resolution in the constructor (detector.js lines 40-66). -/
def resolveConfig (o : Options) : Config where
  thresholds :=
    { low := jsOr o.lowThreshold 30
      medium := jsOr o.mediumThreshold 50
      high := jsOr o.highThreshold 70 }
  minSamples :=
    { mouse := jsOr o.minMouseSamples 20
      keyboard := jsOr o.minKeyboardSamples 10 }
  suspicionWeights :=
    { webdriver := jsOr o.webdriverWeight 30
      canvasError := jsOr o.canvasErrorWeight 10
      webglError := jsOr o.webglErrorWeight 10
      lowFonts := jsOr o.lowFontsWeight 10
      oneCore := jsOr o.oneCoreWeight 10
      straightMouse := jsOr o.straightMouseWeight 10
      evenMouseSpeed := jsOr o.evenMouseSpeedWeight 10
      superFastTyping := jsOr o.superFastTypingWeight 15
      evenTyping := jsOr o.evenTypingWeight 10
      noScrollStops := jsOr o.noScrollStopsWeight 5 }
  challengeTimeout := jsOr o.challengeTimeout 30000
  rateLimitWindow := jsOr o.rateLimitWindow 60000
  maxVerifyPerWindow := jsOr o.maxVerifyPerWindow 5
  debug := o.debug.getD false

/-- Which of the five optional hook callbacks were supplied (lines 78-84). -/
structure HooksRegistered where
  onSuspicionChange : Bool
  onChallengeStart : Bool
  onChallengeEnd : Bool
  onBotDetected : Bool
  onVerify : Bool
  deriving DecidableEq

def noHooks : HooksRegistered :=
  ⟨false, false, false, false, false⟩

def allHooks : HooksRegistered :=
  ⟨true, true, true, true, true⟩

structure PointerSample where
  x : Int
  y : Int
  t : Int
  deriving DecidableEq

structure KeySample where
  key : String
  t : Int
  deriving DecidableEq

structure ScrollSample where
  y : Int
  t : Int
  deriving DecidableEq

/-- `this.behaviors` (line 97). -/
structure Behaviors where
  mouse : List PointerSample
  keyboard : List KeySample
  scroll : List ScrollSample
  deriving DecidableEq

/-- Mutable per-instance state (lines 95-101). -/
structure GuardianState where
  suspicionScore : Int
  fingerprint : Option String
  behaviors : Behaviors
  lastVerifyTime : Int
  verifyCount : Int
  deriving DecidableEq

/-- Constructor-time internal state (lines 95-101). -/
def initState : GuardianState where
  suspicionScore := 0
  fingerprint := none
  behaviors := ⟨[], [], []⟩
  lastVerifyTime := 0
  verifyCount := 0

/-- A constructed instance: resolved config, hook flags, internal state. -/
structure Guardian where
  config : Config
  hooks : HooksRegistered
  state : GuardianState
  deriving DecidableEq

/-- The constructor (lines 26-102): pure record construction, no check. -/
def mkGuardian (o : Options) (h : HooksRegistered) : Guardian where
  config := resolveConfig o
  hooks := h
  state := initState

/-- Payload of `onSuspicionChange` (lines 116-121): source field names. -/
structure SuspicionChangeInfo where
  old : Int
  new : Int
  delta : Int
  reason : String
  deriving DecidableEq

/-- `ChallengeResult`-shaped objects resolved by the challenge layer. -/
structure ChallengeResult where
  passed : Bool
  method : String
  duration : Option Int := none
  target : Option String := none
  reason : Option String := none
  deriving DecidableEq

/-- Objects returned by `verify()`. -/
structure VerifyResult where
  isBot : Bool
  confidence : String
  reason : Option String := none
  detail : Option ChallengeResult := none
  challenged : Bool := false
  deriving DecidableEq

/-- Trace entry: one hook callback invocation with its payload. -/
inductive HookEvent where
  | suspicionChange (info : SuspicionChangeInfo)
  | challengeStart (score : Int)
  | challengeEnd (result : ChallengeResult)
  | botDetected (res : VerifyResult)
  | verifyCalled
  deriving DecidableEq

/-- `_addSuspicion(v, reason)` (lines 107-123): clamp at 100 and, when an
`onSuspicionChange` hook is registered, notify unconditionally. -/
def addSuspicion (hooks : HooksRegistered) (st : GuardianState) (v : Int)
    (reason : String) : GuardianState × List HookEvent :=
  let old := st.suspicionScore
  let next := min (st.suspicionScore + v) 100
  ({ st with suspicionScore := next },
   if hooks.onSuspicionChange then
     [HookEvent.suspicionChange ⟨old, next, v, reason⟩]
   else [])

/-- A guarded suspicion contribution, threading the event trace. -/
def addIf (hooks : HooksRegistered) (cond : Prop) [Decidable cond] (v : Int)
    (reason : String) (s : GuardianState × List HookEvent) :
    GuardianState × List HookEvent :=
  if cond then
    let r := addSuspicion hooks s.1 v reason
    (r.1, s.2 ++ r.2)
  else s

/-- The single JS exception kind the embedding needs: accessing a member
of a `null` context object. -/
inductive JsError where
  | typeError
  deriving DecidableEq

/-- Browser environment observed by the probes, plus the user's
interaction with a presented challenge. -/
structure Env where
  webdriver : Bool
  canvas2dAvailable : Bool
  canvasThrows : Bool
  canvasDataUrl : String
  webglThrows : Bool
  webglAvailable : Bool
  webglDebugExt : Bool
  webglVendor : String
  webglRenderer : String
  webglVersion : String
  audioAvailable : Bool
  audioSampleRate : Int
  audioChannels : Int
  fontCtxAvailable : Bool
  fontWidth : String → Int
  hardwareCores : Option Int
  hardwareMemory : Option Int
  userAgent : String
  platform : String
  languages : List String
  timezone : String
  locale : String
  tzOffset : Int
  hashResult : String
  sliderInputs : List (String × Int)
  emojiTarget : String
  emojiClick : Option (String × Int)

/-- `_canvasFingerprint()` (lines 156-173): `try`/`catch` plus a null
context check, both mapping to the `"error"` sentinel. -/
def canvasFingerprint (e : Env) : String :=
  if ¬ e.canvas2dAvailable then "error"
  else if e.canvasThrows then "error"
  else e.canvasDataUrl

inductive WebglFp where
  | unsupported
  | error
  | info (vendor : Option String) (renderer : Option String) (version : String)
  deriving DecidableEq

/-- `_webglFingerprint()` (lines 175-200). -/
def webglFingerprint (e : Env) : WebglFp :=
  if e.webglThrows then WebglFp.error
  else if ¬ e.webglAvailable then WebglFp.unsupported
  else if ¬ e.webglDebugExt then WebglFp.info none none e.webglVersion
  else WebglFp.info (some e.webglVendor) (some e.webglRenderer) e.webglVersion

inductive AudioFp where
  | unsupported
  | info (sampleRate : Int) (channels : Int)
  deriving DecidableEq

/-- `_audioFingerprint()` (lines 202-213): `catch` maps to "unsupported". -/
def audioFingerprint (e : Env) : AudioFp :=
  if ¬ e.audioAvailable then AudioFp.unsupported
  else AudioFp.info e.audioSampleRate e.audioChannels

def baseFonts : List String :=
  ["monospace", "sans-serif", "serif"]

def testFonts : List String :=
  ["Arial", "Verdana", "Times New Roman", "Courier New", "Georgia"]

/-- `_fontFingerprint()` (lines 215-238): NO `try`/`catch` in the source.
When `getContext("2d")` yields `null`, the immediately following
`ctx.font = ...` assignment raises a `TypeError`, which this probe does
not handle. -/
def fontFingerprint (e : Env) : Except JsError (List String) :=
  if ¬ e.fontCtxAvailable then Except.error JsError.typeError
  else
    Except.ok (testFonts.flatMap fun f =>
      (baseFonts.filter fun b =>
        e.fontWidth ("72px " ++ f ++ ", " ++ b) ≠ e.fontWidth ("72px " ++ b)).map
        fun _ => f)

structure HardwareFp where
  cores : Option Int
  memory : Option Int
  ua : String
  platform : String
  languages : List String
  deriving DecidableEq

/-- `_hardwareFingerprint()` (lines 240-248); `cores`/`memory` hold the
post-`|| null` values supplied by the environment. -/
def hardwareFingerprint (e : Env) : HardwareFp where
  cores := e.hardwareCores
  memory := e.hardwareMemory
  ua := e.userAgent
  platform := e.platform
  languages := e.languages

structure TimezoneFp where
  timezone : String
  locale : String
  offset : Int
  deriving DecidableEq

/-- `_timezoneFingerprint()` (lines 250-257). -/
def timezoneFingerprint (e : Env) : TimezoneFp where
  timezone := e.timezone
  locale := e.locale
  offset := e.tzOffset

/-- The composite record assembled by `generateFingerprint()`. -/
structure FingerprintRecord where
  canvas : String
  webgl : WebglFp
  audio : AudioFp
  fonts : List String
  hardware : HardwareFp
  timezone : TimezoneFp
  deriving DecidableEq

/-- `_analyzeFingerprint(fp)` (lines 259-274): the five suspicious-signal
checks, each contributing its configured weight in source order. -/
def analyzeFingerprint (e : Env) (cfg : Config) (hooks : HooksRegistered)
    (st : GuardianState) (fp : FingerprintRecord) :
    GuardianState × List HookEvent :=
  let w := cfg.suspicionWeights
  addIf hooks (fp.hardware.cores = some 1) w.oneCore "1 core device"
    (addIf hooks (fp.fonts.length < 3) w.lowFonts "few fonts detected"
      (addIf hooks (fp.webgl = WebglFp.unsupported ∨ fp.webgl = WebglFp.error)
        w.webglError "webgl unsupported"
        (addIf hooks (fp.canvas = "error") w.canvasError "canvas error"
          (addIf hooks (e.webdriver = true) w.webdriver "webdriver detected"
            (st, [])))))

/-- `generateFingerprint()` (lines 140-154): run the six probes, store the
digest, analyze.  An unhandled error in the font probe propagates. -/
def generateFingerprint (e : Env) (cfg : Config) (hooks : HooksRegistered)
    (st : GuardianState) :
    Except JsError (GuardianState × List HookEvent) :=
  match fontFingerprint e with
  | Except.error err => Except.error err
  | Except.ok fonts =>
    let fp : FingerprintRecord :=
      { canvas := canvasFingerprint e
        webgl := webglFingerprint e
        audio := audioFingerprint e
        fonts := fonts
        hardware := hardwareFingerprint e
        timezone := timezoneFingerprint e }
    let st1 := { st with fingerprint := some e.hashResult }
    Except.ok (analyzeFingerprint e cfg hooks st1 fp)

/-- First `input` event on the slider whose value is the string "100"
(lines 451-457); its time offset from challenge start is the duration. -/
def sliderResolution (inputs : List (String × Int)) : Option Int :=
  (inputs.find? fun p => p.1 = "100").map Prod.snd

/-- The object `_challengeSlider` resolves with (line 455). -/
def sliderChallengeResult (d : Int) : ChallengeResult where
  passed := decide (d > 500)
  method := "slider"
  duration := some d

/-- When (and with what) the slider challenge promise settles. -/
def sliderUserResolution (inputs : List (String × Int)) :
    Option (Int × ChallengeResult) :=
  (sliderResolution inputs).map fun d => (d, sliderChallengeResult d)

/-- The object `_challengeEmoji` resolves with (line 482). -/
def emojiChallengeResult (target : String) (choice : String) : ChallengeResult where
  passed := decide (choice = target)
  method := "emoji"
  target := some target

/-- When (and with what) the emoji challenge promise settles. -/
def emojiUserResolution (target : String) (click : Option (String × Int)) :
    Option (Int × ChallengeResult) :=
  click.map fun c => (c.2, emojiChallengeResult target c.1)

/-- The timeout branch's resolution object (line 429). -/
def timeoutResult : ChallengeResult where
  passed := false
  method := "timeout"
  reason := some "timeout"

/-- Outcome of the `Promise.race` plus the DOM facts at resolution time:
is the challenge overlay (with its input listener) still attached? -/
structure RaceOutcome where
  result : ChallengeResult
  overlayAttached : Bool
  deriving DecidableEq

/-- The race (line 434): the user branch wins iff it settles strictly
before `challengeTimeout`.  Only the user-completion handlers call
`overlay.remove()` (lines 454, 481); the timeout branch removes nothing. -/
def challengeRace (cfg : Config) (user : Option (Int × ChallengeResult)) :
    RaceOutcome :=
  match user with
  | some (t, r) =>
    if t < cfg.challengeTimeout then { result := r, overlayAttached := false }
    else { result := timeoutResult, overlayAttached := true }
  | none => { result := timeoutResult, overlayAttached := true }

/-- `challenge()` (lines 418-439): pick slider below the `high` threshold,
emoji otherwise; race against the timeout; fire start/end hooks. -/
def challenge (e : Env) (cfg : Config) (hooks : HooksRegistered)
    (st : GuardianState) : RaceOutcome × List HookEvent :=
  let startEv : List HookEvent :=
    if hooks.onChallengeStart then [HookEvent.challengeStart st.suspicionScore]
    else []
  let user :=
    if st.suspicionScore < cfg.thresholds.high then
      sliderUserResolution e.sliderInputs
    else emojiUserResolution e.emojiTarget e.emojiClick
  let out := challengeRace cfg user
  let endEv : List HookEvent :=
    if hooks.onChallengeEnd then [HookEvent.challengeEnd out.result] else []
  (out, startEv ++ endEv)

/-- The two-threshold routing of `verify()` (lines 549-553): `some` is an
early pass verdict, `none` means fall through to the challenge. -/
def scoreVerdict (t : Thresholds) (score : Int) : Option VerifyResult :=
  if score < t.low then some { isBot := false, confidence := "high" }
  else if score < t.medium then some { isBot := false, confidence := "medium" }
  else none

/-- The verdict returned by the rate-limit short circuit (lines 528-532). -/
def rateLimitVerdict : VerifyResult where
  isBot := true
  confidence := "high"
  reason := some "rate_limit_exceeded"

/-- `verify()` after the rate-limit gate (lines 537-568): `onVerify` hook,
fingerprint generation, insufficient-sample penalties, threshold routing,
challenge. -/
def verifyMain (e : Env) (cfg : Config) (hooks : HooksRegistered)
    (st : GuardianState) :
    Except JsError (VerifyResult × GuardianState × List HookEvent) :=
  let ev0 : List HookEvent :=
    if hooks.onVerify then [HookEvent.verifyCalled] else []
  match generateFingerprint e cfg hooks st with
  | Except.error err => Except.error err
  | Except.ok (st1, ev1) =>
    let s2 := addIf hooks (st1.behaviors.mouse.length < cfg.minSamples.mouse)
      10 "insufficient mouse samples" (st1, ev0 ++ ev1)
    let s3 := addIf hooks (s2.1.behaviors.keyboard.length < cfg.minSamples.keyboard)
      10 "insufficient keyboard samples" s2
    match scoreVerdict cfg.thresholds s3.1.suspicionScore with
    | some res => Except.ok (res, s3.1, s3.2)
    | none =>
      let c := challenge e cfg hooks s3.1
      if c.1.result.passed then
        Except.ok ({ isBot := false, confidence := "low", challenged := true },
          s3.1, s3.2 ++ c.2)
      else
        let res : VerifyResult :=
          { isBot := true, confidence := "high",
            reason := some "challenge_failed", detail := some c.1.result }
        Except.ok (res, s3.1,
          s3.2 ++ c.2 ++
            (if hooks.onBotDetected then [HookEvent.botDetected res] else []))

/-- `verify()` (lines 516-569): the rate-limit gate runs first (lines
517-535) and short-circuits everything else. -/
def verify (e : Env) (cfg : Config) (hooks : HooksRegistered) (now : Int)
    (st : GuardianState) :
    Except JsError (VerifyResult × GuardianState × List HookEvent) :=
  let count0 :=
    if now - st.lastVerifyTime > cfg.rateLimitWindow then 0 else st.verifyCount
  let count := count0 + 1
  let st1 := { st with verifyCount := count, lastVerifyTime := now }
  if count > cfg.maxVerifyPerWindow then
    Except.ok (rateLimitVerdict, st1,
      if hooks.onBotDetected then [HookEvent.botDetected rateLimitVerdict]
      else [])
  else
    verifyMain e cfg hooks st1

/-- A sequence of `verify()` calls at the given clock values, threading
the instance state; an uncaught exception ends the sequence. -/
def runVerifies (e : Env) (cfg : Config) (hooks : HooksRegistered)
    (st : GuardianState) :
    List Int → List (Except JsError (VerifyResult × GuardianState × List HookEvent))
  | [] => []
  | t :: ts =>
    match verify e cfg hooks t st with
    | Except.ok x => Except.ok x :: runVerifies e cfg hooks x.2.1 ts
    | Except.error err => [Except.error err]

/-- Project a call outcome to the verdict's `reason` field. -/
def resultReason :
    Except JsError (VerifyResult × GuardianState × List HookEvent) → Option String
  | Except.ok (res, _, _) => res.reason
  | Except.error _ => none

/-- Iterated `_addSuspicion` over a list of `(weight, reason)` pairs. -/
def runContributions (hooks : HooksRegistered) (st : GuardianState) :
    List (Int × String) → GuardianState
  | [] => st
  | c :: cs => runContributions hooks (addSuspicion hooks st c.1 c.2).1 cs

/-- The `naive` profile of `SG_PROFILES` (lines 647-659): the spec's
"lenient" / static-signals-only preset, all five behavioral weights set
to `0` in the options record. -/
def naiveProfile : Options where
  debug := some false
  lowThreshold := some 40
  mediumThreshold := some 70
  webdriverWeight := some 50
  straightMouseWeight := some 0
  evenMouseSpeedWeight := some 0
  superFastTypingWeight := some 0
  evenTypingWeight := some 0
  noScrollStopsWeight := some 0
  challengeTimeout := some 15000

/-- The `advanced` profile of `SG_PROFILES` (lines 660-671): the spec's
"strict" preset. -/
def advancedProfile : Options where
  debug := some true
  lowThreshold := some 30
  mediumThreshold := some 50
  webdriverWeight := some 30
  straightMouseWeight := some 10
  evenMouseSpeedWeight := some 10
  superFastTypingWeight := some 15
  evenTypingWeight := some 10
  noScrollStopsWeight := some 5
  challengeTimeout := some 30000

/-- `SG_PROFILES[mode] || SG_PROFILES.naive` (line 678). -/
def profileFor (mode : String) : Options :=
  if mode = "naive" then naiveProfile
  else if mode = "advanced" then advancedProfile
  else naiveProfile

/-- The object spread `{ ...base, ...extra }` (line 679): a key present
in `extra` replaces the base key, presence-based (unlike `||`). -/
def mergeOptions (base extra : Options) : Options where
  lowThreshold := extra.lowThreshold <|> base.lowThreshold
  mediumThreshold := extra.mediumThreshold <|> base.mediumThreshold
  highThreshold := extra.highThreshold <|> base.highThreshold
  minMouseSamples := extra.minMouseSamples <|> base.minMouseSamples
  minKeyboardSamples := extra.minKeyboardSamples <|> base.minKeyboardSamples
  webdriverWeight := extra.webdriverWeight <|> base.webdriverWeight
  canvasErrorWeight := extra.canvasErrorWeight <|> base.canvasErrorWeight
  webglErrorWeight := extra.webglErrorWeight <|> base.webglErrorWeight
  lowFontsWeight := extra.lowFontsWeight <|> base.lowFontsWeight
  oneCoreWeight := extra.oneCoreWeight <|> base.oneCoreWeight
  straightMouseWeight := extra.straightMouseWeight <|> base.straightMouseWeight
  evenMouseSpeedWeight := extra.evenMouseSpeedWeight <|> base.evenMouseSpeedWeight
  superFastTypingWeight := extra.superFastTypingWeight <|> base.superFastTypingWeight
  evenTypingWeight := extra.evenTypingWeight <|> base.evenTypingWeight
  noScrollStopsWeight := extra.noScrollStopsWeight <|> base.noScrollStopsWeight
  challengeTimeout := extra.challengeTimeout <|> base.challengeTimeout
  rateLimitWindow := extra.rateLimitWindow <|> base.rateLimitWindow
  maxVerifyPerWindow := extra.maxVerifyPerWindow <|> base.maxVerifyPerWindow
  debug := extra.debug <|> base.debug

/-- `createGuardian(mode, extraOptions)` (lines 677-680). -/
def createGuardian (mode : String) (extra : Options) (h : HooksRegistered) :
    Guardian :=
  mkGuardian (mergeOptions (profileFor mode) extra) h

/-- Configuration resolved from an empty options record. -/
def defaultConfig : Config :=
  resolveConfig {}

/-- A benign human-like environment: all probes succeed, plenty of fonts
(every candidate measures differently from its generic baseline), many
cores, and the slider completed at 600 ms. -/
def benignEnv : Env where
  webdriver := false
  canvas2dAvailable := true
  canvasThrows := false
  canvasDataUrl := "data:image/png;base64,xyz"
  webglThrows := false
  webglAvailable := true
  webglDebugExt := true
  webglVendor := "Intel Inc."
  webglRenderer := "Intel Iris"
  webglVersion := "WebGL 1.0"
  audioAvailable := true
  audioSampleRate := 44100
  audioChannels := 2
  fontCtxAvailable := true
  fontWidth := fun s => Int.ofNat s.length
  hardwareCores := some 8
  hardwareMemory := some 8
  userAgent := "Mozilla/5.0"
  platform := "Linux x86_64"
  languages := ["en-US"]
  timezone := "UTC"
  locale := "en-US"
  tzOffset := 0
  hashResult := "0f3c"
  sliderInputs := [("100", 600)]
  emojiTarget := "dog"
  emojiClick := some ("dog", 700)

/-- Environment in which the font probe's `getContext("2d")` yields null. -/
def noFontCtxEnv : Env :=
  { benignEnv with fontCtxAvailable := false }

/-- Environment in which the user never touches the slider. -/
def timeoutEnv : Env :=
  { benignEnv with sliderInputs := [] }

/-- Options with the resolved thresholds out of order (low 50 > medium 30). -/
def badThresholdOptions : Options :=
  { lowThreshold := some 50, mediumThreshold := some 30 }

-- =====================================================================
-- Helper lemmas
-- =====================================================================

theorem addSuspicion_score_eq (hooks : HooksRegistered) (st : GuardianState)
    (v : Int) (reason : String) :
    (addSuspicion hooks st v reason).1.suspicionScore =
      min (st.suspicionScore + v) 100 := rfl

theorem addSuspicion_step_bounds (hooks : HooksRegistered) (st : GuardianState)
    (v : Int) (reason : String) (hv : 0 ≤ v) (hst : st.suspicionScore ≤ 100) :
    st.suspicionScore ≤ (addSuspicion hooks st v reason).1.suspicionScore ∧
    (addSuspicion hooks st v reason).1.suspicionScore ≤ 100 := by
  rw [addSuspicion_score_eq]
  exact ⟨le_min (by omega) hst, min_le_right _ _⟩

theorem runContributions_bounds (hooks : HooksRegistered) :
    ∀ (cs : List (Int × String)) (st : GuardianState),
      (∀ c ∈ cs, 0 ≤ c.1) → st.suspicionScore ≤ 100 →
      st.suspicionScore ≤ (runContributions hooks st cs).suspicionScore ∧
      (runContributions hooks st cs).suspicionScore ≤ 100
  | [], _, _, h100 => ⟨le_refl _, h100⟩
  | c :: cs, st, hc, h100 => by
    have step := addSuspicion_step_bounds hooks st c.1 c.2
      (hc c (List.mem_cons_self c cs)) h100
    have ih := runContributions_bounds hooks cs (addSuspicion hooks st c.1 c.2).1
      (fun d hd => hc d (List.mem_cons_of_mem c hd)) step.2
    exact ⟨le_trans step.1 ih.1, ih.2⟩

theorem verify_limited_eq (e : Env) (cfg : Config) (hooks : HooksRegistered)
    (now : Int) (st : GuardianState)
    (hgap : ¬ now - st.lastVerifyTime > cfg.rateLimitWindow)
    (hcnt : st.verifyCount ≥ cfg.maxVerifyPerWindow) :
    verify e cfg hooks now st =
      Except.ok (rateLimitVerdict,
        { st with verifyCount := st.verifyCount + 1, lastVerifyTime := now },
        if hooks.onBotDetected then [HookEvent.botDetected rateLimitVerdict]
        else []) := by
  unfold verify
  simp only [if_neg hgap]
  rw [if_pos (by omega)]

theorem verify_reset_eq (e : Env) (cfg : Config) (hooks : HooksRegistered)
    (now : Int) (st : GuardianState)
    (hgap : now - st.lastVerifyTime > cfg.rateLimitWindow)
    (hmax : 1 ≤ cfg.maxVerifyPerWindow) :
    verify e cfg hooks now st =
      verifyMain e cfg hooks { st with verifyCount := 1, lastVerifyTime := now } := by
  unfold verify
  simp only [if_pos hgap]
  rw [if_neg (by omega)]
  norm_num

-- =====================================================================
-- Claim theorems
-- =====================================================================

/-- C1 counterexample: in a concrete two-call sequence with
`maxVerifyPerWindow = 1`, the excess call's verdict carries the reason
string `"rate_limit_exceeded"` — not `"rate-limit-exceeded"` as the
claim states. -/
theorem rate_limit_reason_spelling_counterexample :
    (runVerifies benignEnv (resolveConfig { maxVerifyPerWindow := some 1 }) noHooks
        initState [0, 1]).map resultReason = [none, some "rate_limit_exceeded"] ∧
    (some "rate_limit_exceeded" : Option String) ≠ some "rate-limit-exceeded" := by
  constructor
  · rfl
  · decide

/-- C1 (amended): once the verify counter — which counts calls separated
by gaps of at most `rateLimitWindow` ms, a longer gap resetting it — has
reached `maxVerifyPerWindow`, each further call within the window
immediately returns `{isBot: true, confidence: "high", reason:
"rate_limit_exceeded"}`, touching only the rate fields (so no fingerprint
is computed and no challenge is presented); and a call arriving more than
`rateLimitWindow` ms after the previous call resets the counter to 1, so
normal evaluation resumes. -/
theorem rate_limit_gate (e : Env) (cfg : Config) (hooks : HooksRegistered)
    (now : Int) (st : GuardianState) :
    (¬ now - st.lastVerifyTime > cfg.rateLimitWindow →
      st.verifyCount ≥ cfg.maxVerifyPerWindow →
      verify e cfg hooks now st =
        Except.ok (rateLimitVerdict,
          { st with verifyCount := st.verifyCount + 1, lastVerifyTime := now },
          if hooks.onBotDetected then [HookEvent.botDetected rateLimitVerdict]
          else [])) ∧
    (now - st.lastVerifyTime > cfg.rateLimitWindow →
      1 ≤ cfg.maxVerifyPerWindow →
      verify e cfg hooks now st =
        verifyMain e cfg hooks
          { st with verifyCount := 1, lastVerifyTime := now }) :=
  ⟨fun hgap hcnt => verify_limited_eq e cfg hooks now st hgap hcnt,
   fun hgap hmax => verify_reset_eq e cfg hooks now st hgap hmax⟩

theorem rate_limit_gate_witness :
    verify benignEnv defaultConfig noHooks 1 { initState with verifyCount := 5 } =
      Except.ok (rateLimitVerdict,
        { initState with verifyCount := 5 + 1, lastVerifyTime := 1 }, []) ∧
    verify benignEnv defaultConfig noHooks 70000 { initState with verifyCount := 5 } =
      verifyMain benignEnv defaultConfig noHooks
        { initState with verifyCount := 1, lastVerifyTime := 70000 } :=
  ⟨(rate_limit_gate benignEnv defaultConfig noHooks 1
      { initState with verifyCount := 5 }).1 (by decide) (by decide),
   (rate_limit_gate benignEnv defaultConfig noHooks 70000
      { initState with verifyCount := 5 }).2 (by decide) (by decide)⟩

/-- C2: the `naive` ("lenient") profile sets all five behavioral weights
to `0`, but the constructor's `options.x || default` resolution replaces
each `0` with the built-in default (10/10/15/10/5), so the resolved
profile is NOT static-signals-only; likewise an explicit `0` override
loses to the default instead of winning. -/
theorem lenient_profile_weights_not_zero :
    ((createGuardian "naive" {} noHooks).config.suspicionWeights.straightMouse = 10 ∧
     (createGuardian "naive" {} noHooks).config.suspicionWeights.evenMouseSpeed = 10 ∧
     (createGuardian "naive" {} noHooks).config.suspicionWeights.superFastTyping = 15 ∧
     (createGuardian "naive" {} noHooks).config.suspicionWeights.evenTyping = 10 ∧
     (createGuardian "naive" {} noHooks).config.suspicionWeights.noScrollStops = 5) ∧
    naiveProfile.straightMouseWeight = some 0 ∧
    (resolveConfig { straightMouseWeight := some 0 }).suspicionWeights.straightMouse = 10 := by
  decide

/-- C3: the suspicion score starts at 0 and, for nonnegative
contributions, every `_addSuspicion` step (and any finite sequence of
such steps) can only increase the score, clamped at 100. -/
theorem suspicion_monotone_clamped (hooks : HooksRegistered)
    (st : GuardianState) (v : Int) (reason : String) (cs : List (Int × String))
    (hv : 0 ≤ v) (hst : st.suspicionScore ≤ 100) (hcs : ∀ c ∈ cs, 0 ≤ c.1) :
    initState.suspicionScore = 0 ∧
    st.suspicionScore ≤ (addSuspicion hooks st v reason).1.suspicionScore ∧
    (addSuspicion hooks st v reason).1.suspicionScore ≤ 100 ∧
    st.suspicionScore ≤ (runContributions hooks st cs).suspicionScore ∧
    (runContributions hooks st cs).suspicionScore ≤ 100 := by
  have step := addSuspicion_step_bounds hooks st v reason hv hst
  have seq := runContributions_bounds hooks cs st hcs hst
  exact ⟨rfl, step.1, step.2, seq.1, seq.2⟩

theorem suspicion_monotone_clamped_witness :
    initState.suspicionScore = 0 ∧
    initState.suspicionScore ≤
      (addSuspicion noHooks initState 30 "webdriver detected").1.suspicionScore ∧
    (addSuspicion noHooks initState 30 "webdriver detected").1.suspicionScore ≤ 100 ∧
    initState.suspicionScore ≤
      (runContributions noHooks initState [(30, "a"), (90, "b")]).suspicionScore ∧
    (runContributions noHooks initState [(30, "a"), (90, "b")]).suspicionScore ≤ 100 :=
  suspicion_monotone_clamped noHooks initState 30 "webdriver detected"
    [(30, "a"), (90, "b")] (by decide) (by decide) (by decide)

/-- C4: with `low ≤ medium`, the threshold routing of `verify()` yields
the high-confidence pass iff `S < low`, the medium-confidence pass iff
`low ≤ S < medium`, and falls through to the challenge iff `S ≥ medium` —
exactly one of the three for every score. -/
theorem verify_threshold_tiering (t : Thresholds) (S : Int)
    (h : t.low ≤ t.medium) :
    (scoreVerdict t S = some { isBot := false, confidence := "high" } ↔ S < t.low) ∧
    (scoreVerdict t S = some { isBot := false, confidence := "medium" } ↔
      t.low ≤ S ∧ S < t.medium) ∧
    (scoreVerdict t S = none ↔ t.medium ≤ S) := by
  by_cases h1 : S < t.low
  · simp [scoreVerdict, h1, VerifyResult.mk.injEq]
    omega
  · by_cases h2 : S < t.medium
    · simp [scoreVerdict, h1, h2, VerifyResult.mk.injEq]
      omega
    · simp [scoreVerdict, h1, h2]
      omega

theorem verify_threshold_tiering_witness :
    (scoreVerdict defaultConfig.thresholds 10 =
        some { isBot := false, confidence := "high" } ↔
      (10 : Int) < defaultConfig.thresholds.low) ∧
    (scoreVerdict defaultConfig.thresholds 10 =
        some { isBot := false, confidence := "medium" } ↔
      defaultConfig.thresholds.low ≤ 10 ∧ (10 : Int) < defaultConfig.thresholds.medium) ∧
    (scoreVerdict defaultConfig.thresholds 10 = none ↔
      defaultConfig.thresholds.medium ≤ 10) :=
  verify_threshold_tiering defaultConfig.thresholds 10 (by decide)

/-- C5 counterexample: options resolving to thresholds low = 50 >
medium = 30 are accepted without any error — construction yields a
fully-formed instance whose `verify()` runs normally (returning a
high-confidence pass here), refuting "fails fast ... produces no usable
instance". -/
theorem no_validation_counterexample :
    (mkGuardian badThresholdOptions noHooks).config.thresholds.low = 50 ∧
    (mkGuardian badThresholdOptions noHooks).config.thresholds.medium = 30 ∧
    ¬ ((mkGuardian badThresholdOptions noHooks).config.thresholds.low <
        (mkGuardian badThresholdOptions noHooks).config.thresholds.medium) ∧
    (mkGuardian badThresholdOptions noHooks).state = initState ∧
    (verify benignEnv (mkGuardian badThresholdOptions noHooks).config noHooks 0
        (mkGuardian badThresholdOptions noHooks).state).toOption.map
      (fun r => r.1) = some { isBot := false, confidence := "high" } := by
  decide

/-- C5 (amended): the constructor performs no validation whatsoever —
even for options whose resolved thresholds violate `low < medium ≤
high`, construction succeeds and produces the instance with exactly the
resolved configuration and fresh initial state. -/
theorem construction_never_validates (o : Options) (hk : HooksRegistered)
    (_hbad : ¬ ((resolveConfig o).thresholds.low <
          (resolveConfig o).thresholds.medium ∧
        (resolveConfig o).thresholds.medium ≤
          (resolveConfig o).thresholds.high)) :
    (mkGuardian o hk).config = resolveConfig o ∧
    (mkGuardian o hk).hooks = hk ∧
    (mkGuardian o hk).state = initState :=
  ⟨rfl, rfl, rfl⟩

theorem construction_never_validates_witness :
    (mkGuardian badThresholdOptions noHooks).config =
      resolveConfig badThresholdOptions ∧
    (mkGuardian badThresholdOptions noHooks).hooks = noHooks ∧
    (mkGuardian badThresholdOptions noHooks).state = initState :=
  construction_never_validates badThresholdOptions noHooks (by decide)

/-- C6 counterexample: when `getContext("2d")` yields null inside the
font probe, the probe's unguarded `ctx.font` assignment raises, and the
exception propagates out of `generateFingerprint()` instead of resolving
to a sentinel. -/
theorem font_probe_throws_counterexample :
    generateFingerprint noFontCtxEnv defaultConfig noHooks initState =
      Except.error JsError.typeError := rfl

/-- C6 (amended): the canvas, WebGL and audio probes map every failure to
the sentinel values "error"/"unsupported" and never throw, but the font
probe has no error handling: a missing 2-D context there raises an
exception that propagates out of `generateFingerprint()`. -/
theorem probe_error_handling (e1 e2 e3 e4 e5 : Env) (cfg : Config)
    (hk : HooksRegistered) (st : GuardianState)
    (h1 : e1.canvas2dAvailable = false ∨ e1.canvasThrows = true)
    (h2 : e2.webglThrows = true)
    (h3 : e3.webglThrows = false) (h3b : e3.webglAvailable = false)
    (h4 : e4.audioAvailable = false)
    (h5 : e5.fontCtxAvailable = false) :
    canvasFingerprint e1 = "error" ∧
    webglFingerprint e2 = WebglFp.error ∧
    webglFingerprint e3 = WebglFp.unsupported ∧
    audioFingerprint e4 = AudioFp.unsupported ∧
    generateFingerprint e5 cfg hk st = Except.error JsError.typeError := by
  refine ⟨?_, ?_, ?_, ?_, ?_⟩
  · rcases h1 with h | h <;> simp [canvasFingerprint, h]
  · simp [webglFingerprint, h2]
  · simp [webglFingerprint, h3, h3b]
  · simp [audioFingerprint, h4]
  · simp [generateFingerprint, fontFingerprint, h5]

theorem probe_error_handling_witness :
    canvasFingerprint { benignEnv with canvas2dAvailable := false } = "error" ∧
    webglFingerprint { benignEnv with webglThrows := true } = WebglFp.error ∧
    webglFingerprint { benignEnv with webglAvailable := false } =
      WebglFp.unsupported ∧
    audioFingerprint { benignEnv with audioAvailable := false } =
      AudioFp.unsupported ∧
    generateFingerprint noFontCtxEnv defaultConfig noHooks initState =
      Except.error JsError.typeError :=
  probe_error_handling { benignEnv with canvas2dAvailable := false }
    { benignEnv with webglThrows := true }
    { benignEnv with webglAvailable := false }
    { benignEnv with audioAvailable := false }
    noFontCtxEnv defaultConfig noHooks initState
    (Or.inl rfl) rfl rfl rfl rfl rfl

/-- C7: a slider completion (first input event with value "100") at
duration `d ≤ 500` ms resolves with `passed: false` even though the
mechanical end-state was reached, and a completion at `d > 500` ms
resolves with `passed: true` and method "slider". -/
theorem slider_dwell_gate (inputs : List (String × Int)) (d : Int)
    (h : sliderResolution inputs = some d) :
    (d ≤ 500 → sliderUserResolution inputs =
      some (d, { passed := false, method := "slider", duration := some d })) ∧
    (500 < d → sliderUserResolution inputs =
      some (d, { passed := true, method := "slider", duration := some d })) := by
  constructor
  · intro hd
    have hb : decide (d > 500) = false := decide_eq_false (by omega)
    simp [sliderUserResolution, h, sliderChallengeResult, hb]
  · intro hd
    have hb : decide (d > 500) = true := decide_eq_true hd
    simp [sliderUserResolution, h, sliderChallengeResult, hb]

theorem slider_dwell_gate_witness :
    sliderUserResolution [("100", 100)] =
      some (100, { passed := false, method := "slider", duration := some 100 }) ∧
    sliderUserResolution [("100", 900)] =
      some (900, { passed := true, method := "slider", duration := some 900 }) :=
  ⟨(slider_dwell_gate [("100", 100)] 100 (by decide)).1 (by decide),
   (slider_dwell_gate [("100", 900)] 900 (by decide)).2 (by decide)⟩

/-- C8 counterexample: with the score already clamped at 100, adding 5
leaves the score unchanged, yet the registered change hook is still
invoked (payload `{old: 100, new: 100, delta: 5, reason}`) — refuting
"notify iff the resulting value differs". -/
theorem notify_on_unchanged_counterexample :
    (addSuspicion allHooks { initState with suspicionScore := 100 } 5
        "probe").1.suspicionScore = 100 ∧
    (addSuspicion allHooks { initState with suspicionScore := 100 } 5 "probe").2 =
      [HookEvent.suspicionChange ⟨100, 100, 5, "probe"⟩] := by
  decide

/-- C8 (amended): `_addSuspicion(weight, reason)` sets the score to
`min(100, current + weight)` and, whenever a change hook is registered,
invokes it on every call — with payload `{old, new, delta, reason}` —
regardless of whether the value changed; with no hook registered nothing
fires. -/
theorem add_suspicion_always_notifies (hooks : HooksRegistered)
    (st : GuardianState) (v : Int) (r : String) :
    (addSuspicion hooks st v r).1.suspicionScore =
      min (st.suspicionScore + v) 100 ∧
    (addSuspicion hooks st v r).2 =
      (if hooks.onSuspicionChange then
        [HookEvent.suspicionChange
          ⟨st.suspicionScore, min (st.suspicionScore + v) 100, v, r⟩]
       else []) :=
  ⟨rfl, rfl⟩

/-- C9: when the challenge race resolves by timeout (score 60 selects the
slider challenge; the user never completes it), the overlay and its input
listener are still attached at resolution time — the losing branch's UI
is not dismissed, contradicting the required cleanup. -/
theorem challenge_timeout_leaves_overlay :
    (challenge timeoutEnv defaultConfig allHooks
        { initState with suspicionScore := 60 }).1 =
      { result := timeoutResult, overlayAttached := true } ∧
    timeoutResult.method = "timeout" ∧ timeoutResult.passed = false := by
  decide

/-- C10: a rate-limited `verify()` call modifies only `verifyCount` and
`lastVerifyTime`; the suspicion score, the stored fingerprint and all
three behavior buffers are unchanged, `onVerify` is not invoked, and
`onBotDetected` (when registered) is invoked with the verdict. -/
theorem rate_limited_call_frame (e : Env) (cfg : Config)
    (hooks : HooksRegistered) (now : Int) (st : GuardianState)
    (hgap : ¬ now - st.lastVerifyTime > cfg.rateLimitWindow)
    (hcnt : st.verifyCount ≥ cfg.maxVerifyPerWindow)
    (hbot : hooks.onBotDetected = true) :
    ∃ st' : GuardianState,
      verify e cfg hooks now st =
        Except.ok (rateLimitVerdict, st',
          [HookEvent.botDetected rateLimitVerdict]) ∧
      st'.suspicionScore = st.suspicionScore ∧
      st'.fingerprint = st.fingerprint ∧
      st'.behaviors = st.behaviors ∧
      st'.verifyCount = st.verifyCount + 1 ∧
      st'.lastVerifyTime = now ∧
      HookEvent.verifyCalled ∉ [HookEvent.botDetected rateLimitVerdict] := by
  refine ⟨{ st with verifyCount := st.verifyCount + 1, lastVerifyTime := now },
    ?_, rfl, rfl, rfl, rfl, rfl, by decide⟩
  rw [verify_limited_eq e cfg hooks now st hgap hcnt, hbot]
  simp

theorem rate_limited_call_frame_witness :
    ∃ st' : GuardianState,
      verify benignEnv defaultConfig allHooks 1
          { initState with verifyCount := 5 } =
        Except.ok (rateLimitVerdict, st',
          [HookEvent.botDetected rateLimitVerdict]) ∧
      st'.suspicionScore =
        ({ initState with verifyCount := 5 } : GuardianState).suspicionScore ∧
      st'.fingerprint =
        ({ initState with verifyCount := 5 } : GuardianState).fingerprint ∧
      st'.behaviors =
        ({ initState with verifyCount := 5 } : GuardianState).behaviors ∧
      st'.verifyCount =
        ({ initState with verifyCount := 5 } : GuardianState).verifyCount + 1 ∧
      st'.lastVerifyTime = 1 ∧
      HookEvent.verifyCalled ∉ [HookEvent.botDetected rateLimitVerdict] :=
  rate_limited_call_frame benignEnv defaultConfig allHooks 1
    { initState with verifyCount := 5 } (by decide) (by decide) rfl

end SilentGuardian
